import Mathlib

/-!
Shallow embedding of the ServiceDesk backend (`backend/main.py`,
`backend/crud.py`, `backend/utils.py`, `backend/security.py`,
`backend/schemas.py`, `backend/models.py`).

Modelling conventions:
* SQLAlchemy rows become Lean structures; the database is a record of lists,
  looked up with `List.find?` (ids are unique in practice, and `find?` mirrors
  `scalar_one_or_none` on the first match).
* The Redis store is a record with one typed field per key family
  (`blacklist:{token}`, `verification:{user_id}`, `problem:{id}`,
  `user:{id}:problems_list`, `admin:problems_list`, `snake_top_10`); the
  string key space partitions injectively into these families.  Each entry
  carries an optional absolute expiry instant; `get` at time `now` only sees
  entries with `now` strictly before the expiry, which models TTL expiry.
* Signed JWTs are structures carrying the claims and the signing key; decoding
  with a key succeeds exactly when the key matches (signature verifies) and
  the expiry has not passed, which is what `jose.jwt.decode` enforces.
* The Argon2 password hash is modelled as an injective tagging function and
  `verify_password` as comparison against the recomputed hash, matching the
  functional contract of `hash_pass` / `verify_password` in `security.py`.
* Server-generated timestamps (`date_created`, `date_completed`) are not read
  by any modelled operation and are omitted from the row structures.
* Effectful endpoint handlers become functions from explicit state to
  `Except` of an HTTP error (status code, detail string) or a result together
  with the new state; background-task scheduling becomes a returned list of
  `Notification` values.
-/

/-- A row of the `users` table (`models.User`). -/
structure User where
  id : Nat
  username : String
  email : String
  password : String
  is_admin : Bool
  is_verified : Bool
  telegram_id : Option Int
deriving DecidableEq, Repr

/-- A row of the `problems` table (`models.Problem`). -/
structure Problem where
  id : Nat
  title : String
  description : String
  image_url : Option String
  status : String
  user_id : Nat
  admin_id : Option Nat
deriving DecidableEq, Repr

/-- A row of the `service_records` table (`models.ServiceRecord`). -/
structure ServiceRecord where
  id : Nat
  work_done : String
  used_parts : Option (List String)
  warranty_info : String
  problem_id : Nat
  user_id : Nat
deriving DecidableEq, Repr

/-- A row of the `snake_stats` table (`models.SnakeStats`, reconstructed from
its uses in `crud.create_snake` / `crud.get_top_10`: one row per `user_id`
with an integer `points`). -/
structure SnakeStats where
  user_id : Nat
  points : Int
deriving DecidableEq, Repr

/-- The relational database state. -/
structure DB where
  users : List User
  problems : List Problem
  service_records : List ServiceRecord
  snakes : List SnakeStats
deriving DecidableEq, Repr

/-- A signed JWT: claims plus the key it was signed with (`jose.jwt`). -/
structure Jwt where
  sub : Option String
  typ : Option String
  exp : Nat
  key : String
deriving DecidableEq, Repr

/-- The process-wide signing secret (`security.SECRET_KEY`). -/
def secretKey : String := "SECRET_KEY"

/-- `security.create_access_token`: `sub` claim plus a 30-minute expiry,
signed with the process secret. -/
def create_access_token (sub : String) (now : Nat) : Jwt :=
  { sub := some sub, typ := none, exp := now + 30 * 60, key := secretKey }

/-- Modelled from the spec: `security.create_refresh_token` is imported by
`main.py` and by the test suite but missing from the `security.py` snapshot.
Per spec §4.4 it issues a signed token embedding the same subject plus a
`type: "refresh"` discriminator and a longer (unspecified) expiry; the
lifetime is modelled as 7 days. -/
def create_refresh_token (sub : String) (now : Nat) : Jwt :=
  { sub := some sub, typ := some "refresh", exp := now + 7 * 24 * 60 * 60, key := secretKey }

/-- `jose.jwt.decode`: succeeds iff the signature verifies (the signing key
matches the decoding key) and the expiry has not passed. -/
def jwtDecode (t : Jwt) (key : String) (now : Nat) : Option Jwt :=
  if t.key = key ∧ now < t.exp then some t else none

/-- `security.hash_pass`, modelled as an injective tag (Argon2 is a one-way
function; only the verify-recomputes-and-compares contract matters here). -/
def hash_pass (password : String) : String :=
  "$argon2id$" ++ password

/-- `security.verify_password`: true iff the hash of the candidate matches the
stored hash (`VerifyMismatchError` is translated to `false`). -/
def verify_password (plain_pass : String) (hashed_pass : String) : Bool :=
  hashed_pass == hash_pass plain_pass

/-- The ephemeral key-value store, one typed field per key family, each entry
with an optional absolute expiry instant. -/
structure Redis where
  blacklist : List (Jwt × Option Nat)
  verification : List (Nat × String × Option Nat)
  problemCache : List (Nat × Problem × Option Nat)
  userListCache : List (Nat × String × Option Nat)
  adminListCache : Option (String × Option Nat)
  snakeTopCache : Option (String × Option Nat)
deriving DecidableEq, Repr

/-- An entry is live at `now` when it has no expiry or `now` is before it. -/
def rLive (now : Nat) (expiry : Option Nat) : Bool :=
  match expiry with
  | none => true
  | some e => now < e

/-- `redis.get(f"blacklist:{token}")` at time `now`. -/
def rGetBlacklist (r : Redis) (t : Jwt) (now : Nat) : Option String :=
  match r.blacklist.find? (fun e => e.1 == t) with
  | some (_, expiry) => if rLive now expiry then some "1" else none
  | none => none

/-- `redis.get(f"verification:{user_id}")` at time `now`. -/
def rGetVerification (r : Redis) (uid : Nat) (now : Nat) : Option String :=
  match r.verification.find? (fun e => e.1 == uid) with
  | some (_, code, expiry) => if rLive now expiry then some code else none
  | none => none

/-- `redis.delete(f"verification:{user_id}")`. -/
def rDelVerification (r : Redis) (uid : Nat) : Redis :=
  { r with verification := r.verification.filter (fun e => !(e.1 == uid)) }

/-- `redis.get(f"problem:{id}")` at time `now` (the cached value is the
serialized ticket; serialization is modelled as the identity). -/
def rGetProblem (r : Redis) (id : Nat) (now : Nat) : Option Problem :=
  match r.problemCache.find? (fun e => e.1 == id) with
  | some (_, p, expiry) => if rLive now expiry then some p else none
  | none => none

/-- `redis.set(f"problem:{id}", json.dumps(serialized), ex=600)`. -/
def rSetProblem (r : Redis) (id : Nat) (p : Problem) (now : Nat) : Redis :=
  { r with problemCache := (id, p, some (now + 600)) :: r.problemCache }

-- ================= crud.py: users =================

/-- `crud.get_user_by_id`. -/
def get_user_by_id (db : DB) (user_id : Nat) : Option User :=
  db.users.find? (fun u => u.id == user_id)

/-- Python `str.lower()`, modelled character-wise (the ASCII case mapping of
`Char.toLower`, expressed by structural recursion over the character list so
that concrete instances evaluate). -/
def pyLower (s : String) : String :=
  { data := s.data.map Char.toLower }

/-- `crud.get_user_by_email` (note the `email.lower()` applied to the query
before comparing with the stored column). -/
def get_user_by_email (db : DB) (email : String) : Option User :=
  db.users.find? (fun u => u.email == pyLower email)

/-- `schemas.UserCreate`. -/
structure UserCreate where
  username : String
  email : String
  password : String
deriving DecidableEq, Repr

/-- `crud.create_user` (note the `user.email.lower()` applied before insert);
`next_id` stands for the database-assigned surrogate key. -/
def create_user (db : DB) (user : UserCreate) (next_id : Nat) : DB × User :=
  let db_user : User :=
    { id := next_id
      username := user.username
      email := pyLower user.email
      password := hash_pass user.password
      is_admin := false
      is_verified := false
      telegram_id := none }
  ({ db with users := db.users ++ [db_user] }, db_user)

/-- `crud.authenticate_user`. -/
def authenticate_user (db : DB) (email : String) (password : String) : Option User :=
  match get_user_by_email db email with
  | some user => if verify_password password user.password then some user else none
  | none => none

/-- `schemas.UserUpdate` (all fields optional; `exclude_unset` is modelled by
`Option`). -/
structure UserUpdate where
  username : Option String
  email : Option String
  password : Option String
deriving DecidableEq, Repr

/-- `crud.update_user`: only supplied fields are applied, a supplied password
is re-hashed, and the e-mail (like every other field) is stored verbatim. -/
def update_user (db : DB) (change : UserUpdate) (user_id : Nat) : Option (DB × User) :=
  match get_user_by_id db user_id with
  | none => none
  | some user =>
    let user := match change.username with
      | some v => { user with username := v }
      | none => user
    let user := match change.email with
      | some v => { user with email := v }
      | none => user
    let user := match change.password with
      | some v => { user with password := hash_pass v }
      | none => user
    some ({ db with users := db.users.map (fun x => if x.id == user_id then user else x) }, user)

/-- `crud.delete_user`. -/
def delete_user (db : DB) (user_id : Nat) : DB × Option User :=
  match get_user_by_id db user_id with
  | none => (db, none)
  | some user => ({ db with users := db.users.filter (fun x => !(x.id == user_id)) }, some user)

/-- `crud.verify_user`. -/
def verify_user (db : DB) (user_id : Nat) : DB × Option User :=
  match get_user_by_id db user_id with
  | none => (db, none)
  | some user =>
    ({ db with users := db.users.map (fun x => if x.id == user_id then { x with is_verified := true } else x) },
     some { user with is_verified := true })

-- ================= crud.py: problems =================

/-- `crud.get_problem`. -/
def get_problem (db : DB) (problem_id : Nat) : Option Problem :=
  db.problems.find? (fun p => p.id == problem_id)

/-- The status-update write of `crud.update_problem_status` (an SQL UPDATE of
`status` on every row whose id matches). -/
def writeProblemStatus (db : DB) (problem_id : Nat) (st : String) : DB :=
  { db with problems := db.problems.map (fun p => if p.id == problem_id then { p with status := st } else p) }

/-- The two literal values admitted by `schemas.ProblemUpdateStatus`. -/
inductive StatusLiteral
  | done
  | rejected
deriving DecidableEq, Repr

/-- The wire string of each status literal. -/
def StatusLiteral.toStatusString : StatusLiteral → String
  | .done => "виконано"
  | .rejected => "відмовлено"

/-- `crud.update_problem_status`: write, then re-select the row. -/
def update_problem_status (db : DB) (problem_id : Nat) (st : String) : DB × Option Problem :=
  let db' := writeProblemStatus db problem_id st
  (db', get_problem db' problem_id)

-- ================= crud.py: service records =================

/-- `schemas.ServiceRecordCreate`. -/
structure ServiceRecordCreate where
  work_done : String
  used_parts : Option (List String)
  warranty_info : String
  problem_id : Nat
  user_id : Nat
deriving DecidableEq, Repr

/-- `crud.create_service_record`: absent result when the ticket is missing;
otherwise the row is persisted with `user_id` taken from the ticket (the
caller-supplied `user_id` is excluded by `exclude={"user_id"}`) and the
ticket's status is forced to the terminal done literal. -/
def create_service_record (db : DB) (record : ServiceRecordCreate) (next_id : Nat) :
    Option (DB × ServiceRecord) :=
  match get_problem db record.problem_id with
  | none => none
  | some problem =>
    let db_record : ServiceRecord :=
      { id := next_id
        work_done := record.work_done
        used_parts := record.used_parts
        warranty_info := record.warranty_info
        problem_id := record.problem_id
        user_id := problem.user_id }
    let db' := { db with service_records := db.service_records ++ [db_record] }
    let db' := (update_problem_status db' record.problem_id StatusLiteral.done.toStatusString).1
    some (db', db_record)

-- ================= crud.py: snake =================

/-- `schemas.SnakeCreate` (reconstructed from its uses: the leaderboard
submission carries the target user id and the submitted points; the
`username` / `is_current_user` presentation fields are excluded before
insert and are not modelled). -/
structure SnakeCreate where
  user_id : Nat
  points : Int
deriving DecidableEq, Repr

/-- `crud.create_snake`: fetch the row for the user; if present overwrite the
points only when the submission is strictly greater, otherwise insert a new
row. -/
def create_snake (db : DB) (stats : SnakeCreate) : DB × SnakeStats :=
  match db.snakes.find? (fun s => s.user_id == stats.user_id) with
  | some snake =>
    let snake' := if stats.points > snake.points then { snake with points := stats.points } else snake
    ({ db with snakes := db.snakes.map (fun s => if s.user_id == stats.user_id then snake' else s) },
     snake')
  | none =>
    let snake : SnakeStats := { user_id := stats.user_id, points := stats.points }
    ({ db with snakes := db.snakes ++ [snake] }, snake)

/-- `crud.get_user_stats`. -/
def get_user_stats (db : DB) (user_id : Nat) : Option SnakeStats :=
  db.snakes.find? (fun s => s.user_id == user_id)

-- ================= utils.py / main.py: endpoints =================

/-- An HTTP error response: status code and detail string. -/
structure HErr where
  status : Nat
  detail : String
deriving DecidableEq, Repr

/-- `utils.get_current_user`: blacklist check, token decode (signature and
expiry), subject extraction, integer parse of the subject (an unparsable
subject raises out of the handled `JWTError` scope, modelled as a 500), and
user lookup.  Every authentication failure is a 401. -/
def get_current_user (r : Redis) (db : DB) (token : Jwt) (now : Nat) : Except Nat User :=
  if (rGetBlacklist r token now).isSome then .error 401
  else
    match jwtDecode token secretKey now with
    | none => .error 401
    | some payload =>
      match payload.sub with
      | none => .error 401
      | some user_id =>
        match user_id.toNat? with
        | none => .error 500
        | some uid =>
          match get_user_by_id db uid with
          | none => .error 401
          | some user => .ok user

/-- `main.delete_user` (DELETE /users/me): blacklist the presented token for
its remaining lifetime when positive, drop the caller's list cache and the
admin list cache, then delete the account.  `token` and its `exp` are the
values stashed on the request state by `get_current_user`. -/
def delete_user_endpoint (r : Redis) (db : DB) (current_user : User) (token : Jwt) (now : Nat) :
    Redis × DB × Option User :=
  let ttl : Int := (token.exp : Int) - (now : Int)
  let r := if 0 < ttl then { r with blacklist := (token, some (now + ttl.toNat)) :: r.blacklist } else r
  let r := { r with userListCache := r.userListCache.filter (fun e => !(e.1 == current_user.id)), adminListCache := none }
  let res := delete_user db current_user.id
  (r, res.1, res.2)

/-- `main.verify_email` (POST /verify-email). -/
def verify_email_endpoint (r : Redis) (db : DB) (current_user : User) (code : String) (now : Nat) :
    Except HErr (Redis × DB × String) :=
  if current_user.is_verified then .ok (r, db, "Email already verified")
  else
    match rGetVerification r current_user.id now with
    | none => .error { status := 400, detail := "Code expired or not found" }
    | some cached_code =>
      if cached_code ≠ code then .error { status := 400, detail := "Invalid Code" }
      else .ok (rDelVerification r current_user.id, (verify_user db current_user.id).1,
                "Email successfully verified")

/-- `schemas.UserLogin`. -/
structure UserLogin where
  email : String
  password : String
deriving DecidableEq, Repr

/-- The dict built by the `main.login` handler: access token, refresh token,
token type. -/
structure LoginDict where
  access_token : Jwt
  refresh_token : Jwt
  token_type : String
deriving DecidableEq, Repr

/-- `schemas.Token`, the declared response model of POST /login: only
`access_token` and `token_type`. -/
structure TokenSchema where
  access_token : Jwt
  token_type : String
deriving DecidableEq, Repr

/-- The response-model filtering FastAPI applies to the login handler's
return value: the dict is shaped into `schemas.Token`, so any key absent
from that schema is dropped from the wire response. -/
def serialize_token_response (d : LoginDict) : TokenSchema :=
  { access_token := d.access_token, token_type := d.token_type }

/-- `main.login` (POST /login), before response-model filtering. -/
def login_endpoint (db : DB) (user : UserLogin) (now : Nat) : Except HErr LoginDict :=
  match authenticate_user db user.email user.password with
  | none => .error { status := 401, detail := "Invalid credentials" }
  | some db_user =>
    .ok { access_token := create_access_token (toString db_user.id) now
          refresh_token := create_refresh_token (toString db_user.id) now
          token_type := "bearer" }

/-- `main.get_problem` (GET /problems/{id}): on a cache hit only
"non-admin and not the reporter" is rejected; on a miss the full
reporter / assigned-admin / unassigned-admin rule is applied and the row is
cached for 600 s. -/
def get_problem_endpoint (r : Redis) (db : DB) (current_user : User) (id : Nat) (now : Nat) :
    Except HErr (Problem × Redis) :=
  match rGetProblem r id now with
  | some problem_data =>
    if ¬current_user.is_admin ∧ problem_data.user_id ≠ current_user.id then
      .error { status := 403, detail := "Not your problem" }
    else .ok (problem_data, r)
  | none =>
    match get_problem db id with
    | none => .error { status := 404, detail := "Problem not found" }
    | some problem =>
      let is_creator := problem.user_id == current_user.id
      let is_assigned_admin := current_user.is_admin && problem.admin_id == some current_user.id
      let is_unassigned_admin := current_user.is_admin && problem.admin_id == none
      if ¬(is_creator || is_assigned_admin || is_unassigned_admin) then
        .error { status := 403, detail := "Not your problem" }
      else .ok (problem, rSetProblem r id problem now)

/-- A background task scheduled by an endpoint: an email (recipient, template
name, and the `used_parts` value passed to the renderer when the template
takes one) or a chat-platform message to a linked telegram id. -/
inductive Notification
  | email (recipient : String) (template : String) (usedParts : Option (List String))
  | tg (chatId : Int)
deriving DecidableEq, Repr

/-- The `if updated.user.telegram_id:` guard: Python truthiness, so both an
absent id and a zero id schedule nothing. -/
def tgNotifs (owner : User) : List Notification :=
  match owner.telegram_id with
  | some chatId => if chatId == 0 then [] else [Notification.tg chatId]
  | none => []

/-- `main.change_problem_status` (PATCH /problems/{id}/status): update the
row; 404 when it does not exist; on the rejected literal schedule the
rejection email (and a chat message for a truthy linked id); on the done
literal schedule nothing.  The reporter row is reached through the eagerly
loaded `updated.user` relationship; a dangling reporter id would raise out of
the handler, modelled as a 500. -/
def change_problem_status_endpoint (db : DB) (id : Nat) (status_update : StatusLiteral) :
    Except HErr (DB × Problem × List Notification) :=
  let (db', updated?) := update_problem_status db id status_update.toStatusString
  match updated? with
  | none => .error { status := 404, detail := "Problem not found" }
  | some updated =>
    match status_update with
    | .done => .ok (db', updated, [])
    | .rejected =>
      match get_user_by_id db' updated.user_id with
      | none => .error { status := 500, detail := "internal error" }
      | some owner =>
        .ok (db', updated, Notification.email owner.email "ticket_rejected" none :: tgNotifs owner)

/-- `main.create_service_record` (POST /service-record): delegate to
`crud.create_service_record` (an absent result makes the handler dereference
`None`, modelled as a 500), then always schedule the completion email,
rendered with the record's `used_parts`, plus a chat message for a truthy
linked id.  The record's owner is reached through the eagerly loaded
`new_service_record.user` relationship. -/
def create_service_record_endpoint (db : DB) (record : ServiceRecordCreate) (next_id : Nat) :
    Except HErr (DB × ServiceRecord × List Notification) :=
  match create_service_record db record next_id with
  | none => .error { status := 500, detail := "internal error" }
  | some (db', new_record) =>
    match get_problem db' new_record.problem_id with
    | none => .error { status := 404, detail := "problem not found" }
    | some _ =>
      match get_user_by_id db' new_record.user_id with
      | none => .error { status := 500, detail := "internal error" }
      | some owner =>
        .ok (db', new_record,
             Notification.email owner.email "service_record" new_record.used_parts :: tgNotifs owner)

/-- The connection-phase events a WebSocket client can observe from
`main.problem_chat`. -/
inductive WsEvent
  | accepted
  | closed (code : Nat)
  | joined (problem_id : Nat)
deriving DecidableEq, Repr

/-- `main.problem_chat` (WS /ws/problems/{id}/chat), connection phase for an
authenticated user: the socket is accepted first; then a missing ticket, or a
caller who is neither the reporter nor the currently assigned admin, gets a
1008 policy-violation close; otherwise the socket joins the ticket's room. -/
def problem_chat_connect (db : DB) (current_user : User) (id : Nat) : List WsEvent :=
  WsEvent.accepted ::
    (match get_problem db id with
     | none => [WsEvent.closed 1008]
     | some problem =>
       let is_creator := problem.user_id == current_user.id
       let is_assigned_admin := current_user.is_admin && problem.admin_id == some current_user.id
       if ¬(is_creator || is_assigned_admin) then [WsEvent.closed 1008]
       else [WsEvent.joined id])

/-- The database effect of `main.snake_game` (POST /users/me/snake): the
submitted `user_id` is overwritten with the authenticated caller's id before
the upsert. -/
def snake_game_endpoint (db : DB) (current_user : User) (stats : SnakeCreate) : DB × SnakeStats :=
  create_snake db { stats with user_id := current_user.id }

-- ================= helper lemmas =================

/-- Commuting `find?` with an update map: when the update preserves the
predicate and agrees with `g` on matching elements, mapping the update and
then searching is searching and then applying `g`. -/
theorem find?_map_comm {α : Type} (p : α → Bool) (f g : α → α) (l : List α)
    (hp : ∀ a, p (f a) = p a) (hf : ∀ a, p a = true → f a = g a) :
    (l.map f).find? p = (l.find? p).map g := by
  rw [List.find?_map]
  have hpf : (p ∘ f) = p := funext hp
  rw [hpf]
  cases h : l.find? p with
  | none => rfl
  | some a => simp [hf a (List.find?_some h)]

/-- Re-selecting a ticket after the status write of
`crud.update_problem_status` yields the old row with the new status. -/
theorem get_problem_writeProblemStatus (db : DB) (pid : Nat) (st : String) :
    get_problem (writeProblemStatus db pid st) pid =
      (get_problem db pid).map (fun p => { p with status := st }) := by
  unfold get_problem writeProblemStatus
  exact find?_map_comm _ _ _ _
    (by intro a; by_cases h : (a.id == pid) = true <;> simp [h])
    (by intro a ha; simp [ha])

/-- Re-selecting a user after the verified-flag write of `crud.verify_user`
yields the old row with the flag set. -/
theorem get_user_by_id_verify_map (db : DB) (uid : Nat) :
    get_user_by_id (verify_user db uid).1 uid =
      (get_user_by_id db uid).map (fun u => { u with is_verified := true }) := by
  unfold verify_user
  cases h : get_user_by_id db uid with
  | none => simp [h]
  | some u =>
    simp only [h]
    have hcomm := find?_map_comm (fun (x : User) => x.id == uid)
      (fun x => if x.id == uid then { x with is_verified := true } else x)
      (fun x => { x with is_verified := true }) db.users
      (by intro a; by_cases hm : (a.id == uid) = true <;> simp [hm])
      (by intro a ha; simp [ha])
    unfold get_user_by_id at h ⊢
    rw [hcomm, h]

-- ================= shared fixtures =================

/-- An empty database. -/
def dbEmpty : DB :=
  { users := [], problems := [], service_records := [], snakes := [] }

/-- An empty cache. -/
def redisEmpty : Redis :=
  { blacklist := [], verification := [], problemCache := [], userListCache := [],
    adminListCache := none, snakeTopCache := none }

-- ================= C1 =================

/-- A ticket reported by user 5 and already assigned to admin 2. -/
def c1Problem : Problem :=
  { id := 1, title := "t", description := "d", image_url := none,
    status := "в роботі", user_id := 5, admin_id := some 2 }

/-- A cache holding that ticket under `problem:1` with no pending expiry. -/
def c1Redis : Redis :=
  { redisEmpty with problemCache := [(1, c1Problem, none)] }

/-- A verified admin, id 3, who is neither the reporter nor the assigned
handler of `c1Problem`. -/
def c1OtherAdmin : User :=
  { id := 3, username := "a", email := "a@e.com", password := "x",
    is_admin := true, is_verified := true, telegram_id := none }

/-- C1, counterexample: with ticket 1 (reporter 5, handler 2) served from the
`problem:1` cache, admin 3 — an admin with a *different* handler already
assigned, whom the claim requires to get 403 — is returned the ticket. -/
theorem c1_cache_admin_counterexample :
    get_problem_endpoint c1Redis dbEmpty c1OtherAdmin 1 0 = .ok (c1Problem, c1Redis) ∧
    ¬(c1Problem.user_id = c1OtherAdmin.id ∨
      (c1OtherAdmin.is_admin = true ∧ c1Problem.admin_id = some c1OtherAdmin.id) ∨
      (c1OtherAdmin.is_admin = true ∧ c1Problem.admin_id = none)) := by
  constructor
  · rfl
  · decide

/-- C1, amended: on a database read the ticket is returned exactly under the
reporter / assigned-admin / unassigned-admin rule, but on a cache hit the
check degrades to "non-admin and not the reporter is forbidden", so every
admin is served the cached ticket regardless of `admin_id`. -/
theorem c1_get_problem_access (r : Redis) (db : DB) (u : User) (id now : Nat) :
    get_problem_endpoint r db u id now =
      match rGetProblem r id now with
      | some p =>
        if u.is_admin = true ∨ p.user_id = u.id then .ok (p, r)
        else .error { status := 403, detail := "Not your problem" }
      | none =>
        match get_problem db id with
        | none => .error { status := 404, detail := "Problem not found" }
        | some p =>
          if p.user_id = u.id ∨ (u.is_admin = true ∧ p.admin_id = some u.id) ∨
             (u.is_admin = true ∧ p.admin_id = none) then
            .ok (p, rSetProblem r id p now)
          else .error { status := 403, detail := "Not your problem" } := by
  unfold get_problem_endpoint
  cases hc : rGetProblem r id now with
  | some p =>
    by_cases ha : u.is_admin = true
    · simp [ha]
    · by_cases hu : p.user_id = u.id <;> simp [ha, hu]
  | none =>
    cases hp : get_problem db id with
    | none => rfl
    | some p =>
      by_cases h1 : p.user_id = u.id
      · simp [h1]
      · by_cases h2 : u.is_admin = true
        · cases hadm : p.admin_id with
          | none => simp [h1, h2, hadm]
          | some aid => by_cases h3 : aid = u.id <;> simp [h1, h2, hadm, h3]
        · simp [h1, h2]

-- ================= C3 =================

/-- C3: when the referenced ticket exists, `crud.create_service_record`
persists the record with the *ticket owner's* id (whatever `user_id` the
caller supplied is discarded — the outcome is identical under any supplied
id), and the ticket's status is forced to the done literal regardless of its
prior status. -/
theorem c3_service_record_owner_and_done (db : DB) (record : ServiceRecordCreate)
    (next_id : Nat) (problem : Problem)
    (h : get_problem db record.problem_id = some problem) :
    (∀ uid', create_service_record db { record with user_id := uid' } next_id =
        create_service_record db record next_id) ∧
    ∃ db', create_service_record db record next_id =
        some (db', { id := next_id, work_done := record.work_done,
                     used_parts := record.used_parts, warranty_info := record.warranty_info,
                     problem_id := record.problem_id, user_id := problem.user_id }) ∧
      get_problem db' record.problem_id = some { problem with status := "виконано" } := by
  refine ⟨fun uid' => rfl, ?_⟩
  unfold create_service_record
  rw [h]
  refine ⟨_, rfl, ?_⟩
  rw [show (update_problem_status { db with service_records := db.service_records ++ [_] }
        record.problem_id StatusLiteral.done.toStatusString).1 =
      writeProblemStatus { db with service_records := db.service_records ++ [_] }
        record.problem_id StatusLiteral.done.toStatusString from rfl]
  rw [get_problem_writeProblemStatus]
  rw [show get_problem { db with service_records := db.service_records ++ [_] }
        record.problem_id = get_problem db record.problem_id from rfl]
  rw [h]
  rfl

-- ================= C9 =================

/-- C9: the leaderboard upsert is monotone in the stored best: with an
existing row the stored value becomes `max` of the old and submitted points
(unchanged unless the submission is strictly greater); with no row a fresh
row holding the submitted points is inserted. -/
theorem c9_create_snake_upsert_by_max (db : DB) (stats : SnakeCreate) :
    get_user_stats (create_snake db stats).1 stats.user_id =
      some (match get_user_stats db stats.user_id with
            | some s => { s with points := max s.points stats.points }
            | none => { user_id := stats.user_id, points := stats.points }) := by
  unfold create_snake get_user_stats
  cases h : db.snakes.find? (fun s => s.user_id == stats.user_id) with
  | some s =>
    have hid : s.user_id = stats.user_id := by
      have h2 := List.find?_some h
      simpa using h2
    simp only [h]
    have hcomm := find?_map_comm (fun (x : SnakeStats) => x.user_id == stats.user_id)
      (fun x => if x.user_id == stats.user_id then
          (if stats.points > s.points then { s with points := stats.points } else s) else x)
      (fun _ => if stats.points > s.points then { s with points := stats.points } else s) db.snakes
      (by intro a
          by_cases hm : (a.user_id == stats.user_id) = true
          · by_cases hgt : stats.points > s.points <;> simp [hm, hgt, hid]
          · simp [hm])
      (by intro a ha; simp [ha])
    rw [hcomm, h]
    rcases le_or_lt stats.points s.points with hle | hlt
    · rw [if_neg (not_lt.mpr hle), max_eq_left hle]
      rfl
    · rw [if_pos hlt, max_eq_right hlt.le]
      rfl
  | none =>
    simp only [h]
    rw [List.find?_append, h]
    simp

-- ================= C10 =================

/-- C10: POST /users/me/snake keys the upsert by the authenticated caller's
id: the database effect is identical for any caller-supplied `user_id`, and
the affected row is the caller's. -/
theorem c10_snake_game_ignores_supplied_user_id (db : DB) (u : User) (p : Int)
    (uid1 uid2 : Nat) :
    snake_game_endpoint db u { user_id := uid1, points := p } =
      snake_game_endpoint db u { user_id := uid2, points := p } ∧
    (snake_game_endpoint db u { user_id := uid1, points := p }).2.user_id = u.id := by
  constructor
  · rfl
  · unfold snake_game_endpoint create_snake
    cases h : db.snakes.find? (fun s => s.user_id == u.id) with
    | some s =>
      have hid : s.user_id = u.id := by
        have h2 := List.find?_some h
        simpa using h2
      simp only [h]
      by_cases hgt : p > s.points <;> simp [hgt, hid]
    | none => simp [h]

/-- A ticket for the C3 witness: reporter 7, not yet done. -/
def c3Problem : Problem :=
  { id := 9, title := "t", description := "d", image_url := none,
    status := "В обробці", user_id := 7, admin_id := some 2 }

/-- Database for the C3 witness. -/
def c3DB : DB := { dbEmpty with problems := [c3Problem] }

/-- A service-record request for ticket 9 that lies about the owner id. -/
def c3Record : ServiceRecordCreate :=
  { work_done := "w", used_parts := some ["Fan"], warranty_info := "g",
    problem_id := 9, user_id := 55 }

/-- C3, witness: concrete run — the persisted record's owner is 7 (the
reporter), not the supplied 55, and ticket 9 ends up done. -/
theorem c3_witness :
    (∀ uid', create_service_record c3DB { c3Record with user_id := uid' } 1 =
        create_service_record c3DB c3Record 1) ∧
    ∃ db', create_service_record c3DB c3Record 1 =
        some (db', { id := 1, work_done := c3Record.work_done,
                     used_parts := c3Record.used_parts, warranty_info := c3Record.warranty_info,
                     problem_id := c3Record.problem_id, user_id := c3Problem.user_id }) ∧
      get_problem db' c3Record.problem_id = some { c3Problem with status := "виконано" } :=
  c3_service_record_owner_and_done c3DB c3Record 1 c3Problem rfl

-- ================= C2 =================

/-- C2: once DELETE /users/me runs at `now` with a token whose expiry has not
passed, every authenticated request with that token at any instant `t` in the
token's remaining lifetime is rejected 401 by `get_current_user` — the
blacklist entry written with `ex = exp - now` is live exactly until `exp` —
even though `jwtDecode` still succeeds for the token at `t`. -/
theorem c2_deleted_account_token_rejected (r : Redis) (db : DB) (u : User) (token : Jwt)
    (now t : Nat) (hkey : token.key = secretKey) (hnow : now < token.exp)
    (hafter : now ≤ t) (hlife : t < token.exp) :
    get_current_user (delete_user_endpoint r db u token now).1
        (delete_user_endpoint r db u token now).2.1 token t = .error 401 ∧
    jwtDecode token secretKey t = some token := by
  have hdec : jwtDecode token secretKey t = some token := by
    rw [jwtDecode, if_pos ⟨hkey, hlife⟩]
  refine ⟨?_, hdec⟩
  have httl : (0 : Int) < (token.exp : Int) - (now : Int) := by omega
  have hexp : now + ((token.exp : Int) - (now : Int)).toNat = token.exp := by omega
  simp only [delete_user_endpoint, if_pos httl]
  unfold get_current_user
  rw [if_pos]
  rw [rGetBlacklist]
  simp only [List.find?_cons_of_pos]
  rw [hexp]
  simp [rLive, hlife]

/-- The account holder for the C2 witness. -/
def c2User : User :=
  { id := 1, username := "u", email := "u@e.com", password := "x",
    is_admin := false, is_verified := true, telegram_id := none }

/-- Database for the C2 witness. -/
def c2DB : DB := { dbEmpty with users := [c2User] }

/-- The not-yet-expired access token presented to DELETE /users/me at t = 0. -/
def c2Token : Jwt := create_access_token "1" 0

/-- C2, witness: after deletion at t = 0, the same token is rejected 401 at
t = 100 even though it still decodes successfully. -/
theorem c2_witness :
    get_current_user (delete_user_endpoint redisEmpty c2DB c2User c2Token 0).1
        (delete_user_endpoint redisEmpty c2DB c2User c2Token 0).2.1 c2Token 100 = .error 401 ∧
    jwtDecode c2Token secretKey 100 = some c2Token :=
  c2_deleted_account_token_rejected redisEmpty c2DB c2User c2Token 0 100 rfl
    (by decide) (by decide) (by decide)

-- ================= C4 =================

/-- A ticket reported by user 5 whose assigned handler is admin 2. -/
def c4Problem : Problem :=
  { id := 4, title := "t", description := "d", image_url := none,
    status := "в роботі", user_id := 5, admin_id := some 2 }

/-- Database for the C4 theorems. -/
def c4DB : DB := { dbEmpty with problems := [c4Problem] }

/-- A verified admin, id 3, neither reporter nor assigned handler of ticket 4. -/
def c4OtherAdmin : User :=
  { id := 3, username := "a", email := "a@e.com", password := "x",
    is_admin := true, is_verified := true, telegram_id := none }

/-- C4, counterexample: an authenticated admin who is neither the reporter nor
the assigned handler of ticket 4 *does* observe the connection-accepted state
— `websocket.accept()` runs before the authorization check — contradicting
the claim that the client never observes it. -/
theorem c4_accept_before_check_counterexample :
    WsEvent.accepted ∈ problem_chat_connect c4DB c4OtherAdmin 4 := by
  decide

/-- C4, amended: for an authenticated user who is neither the ticket's
reporter nor its currently assigned admin (or when the ticket is missing),
the socket is first accepted and then immediately closed with
policy-violation code 1008; it is never joined to the chat room. -/
theorem c4_unauthorized_chat_accept_then_1008 (db : DB) (u : User) (id : Nat)
    (h : ∀ p, get_problem db id = some p →
      ¬(p.user_id = u.id ∨ (u.is_admin = true ∧ p.admin_id = some u.id))) :
    problem_chat_connect db u id = [WsEvent.accepted, WsEvent.closed 1008] := by
  unfold problem_chat_connect
  cases hp : get_problem db id with
  | none => rfl
  | some p =>
    have hno := h p hp
    have h1 : (p.user_id == u.id) = false := by
      simp only [beq_eq_false_iff_ne, ne_eq]
      intro e
      exact hno (Or.inl e)
    have h2 : (u.is_admin && p.admin_id == some u.id) = false := by
      cases ha : u.is_admin
      · rfl
      · simp only [Bool.true_and, beq_eq_false_iff_ne, ne_eq]
        intro e
        exact hno (Or.inr ⟨ha, e⟩)
    simp [h1, h2]

/-- C4, witness: concrete run of the amended statement — admin 3 connecting
to ticket 4's chat sees exactly accept-then-close-1008. -/
theorem c4_witness :
    problem_chat_connect c4DB c4OtherAdmin 4 = [WsEvent.accepted, WsEvent.closed 1008] :=
  c4_unauthorized_chat_accept_then_1008 c4DB c4OtherAdmin 4
    (by intro p hp
        rw [show get_problem c4DB 4 = some c4Problem from rfl] at hp
        cases hp
        decide)

-- ================= C5 =================

/-- A registration payload whose e-mail has mixed case. -/
def c5Create : UserCreate :=
  { username := "alice", email := "Alice@Example.COM", password := "secret1" }

/-- C5, counterexample: `create_user` stores the lower-cased e-mail, not the
string supplied, and `get_user_by_email` finds the row for a query that
differs from the stored value in case — so neither "stores E exactly as
supplied" nor "matches only rows whose stored email equals the queried
string exactly" holds. -/
theorem c5_email_normalized_counterexample :
    (create_user dbEmpty c5Create 1).2.email = "alice@example.com" ∧
    (create_user dbEmpty c5Create 1).2.email ≠ c5Create.email ∧
    get_user_by_email (create_user dbEmpty c5Create 1).1 "ALICE@EXAMPLE.com" =
      some (create_user dbEmpty c5Create 1).2 := by
  refine ⟨by decide, by decide, by decide⟩

/-- C5, amended: `create_user` lower-cases the e-mail before storing and
`get_user_by_email` lower-cases the query before the exact comparison with
the stored column, so creation and login lookups are case-insensitive (any
case variant of a created address finds the created row, given no earlier row
holds that lower-cased address); only `update_user` applies no normalization
and stores a new e-mail verbatim. -/
theorem c5_email_casing (db : DB) (uc : UserCreate) (next_id : Nat) :
    (create_user db uc next_id).2.email = pyLower uc.email ∧
    (∀ q : String, pyLower q = pyLower uc.email →
      (∀ x ∈ db.users, x.email ≠ pyLower uc.email) →
      get_user_by_email (create_user db uc next_id).1 q = some (create_user db uc next_id).2) ∧
    (∀ uid newEmail dbu, get_user_by_id db uid = some dbu →
      (update_user db { username := none, email := some newEmail, password := none } uid).map
        (fun x => x.2.email) = some newEmail) := by
  refine ⟨rfl, ?_, ?_⟩
  · intro q hq hdb
    unfold get_user_by_email create_user
    rw [List.find?_append]
    have hnone : db.users.find? (fun u => u.email == pyLower q) = none := by
      rw [List.find?_eq_none]
      intro x hx
      simp only [beq_iff_eq, hq]
      exact hdb x hx
    rw [hnone]
    simp [hq]
  · intro uid newEmail dbu h
    unfold update_user
    rw [h]
    rfl

/-- Registration payload for the C5 witness. -/
def c5Create2 : UserCreate :=
  { username := "bob", email := "Bob@example.com", password := "secret2" }

/-- C5, witness: a concrete run of the amended statement — an upper-cased
query finds the account created with mixed case, and a profile update stores
the new e-mail verbatim. -/
theorem c5_witness :
    get_user_by_email (create_user dbEmpty c5Create2 1).1 "BOB@EXAMPLE.COM" =
      some (create_user dbEmpty c5Create2 1).2 ∧
    (update_user (create_user dbEmpty c5Create2 1).1
        { username := none, email := some "MiXeD@Case.Org", password := none } 1).map
      (fun x => x.2.email) = some "MiXeD@Case.Org" :=
  ⟨(c5_email_casing dbEmpty c5Create2 1).2.1 "BOB@EXAMPLE.COM" (by decide)
      (by intro x hx; exact absurd hx (List.not_mem_nil x)),
   (c5_email_casing (create_user dbEmpty c5Create2 1).1 c5Create2 2).2.2 1 "MiXeD@Case.Org"
      (create_user dbEmpty c5Create2 1).2 (by decide)⟩

-- ================= C6 =================

/-- The registered account for the C6 run. -/
def c6User : User :=
  { id := 1, username := "u", email := "u@e.com", password := hash_pass "mypassword",
    is_admin := false, is_verified := true, telegram_id := none }

/-- Database for the C6 run. -/
def c6DB : DB := { dbEmpty with users := [c6User] }

/-- C6: with correct credentials the handler's dict carries an access token
whose `sub` decodes to the user's id as a string, plus a refresh token — but
the declared response model `schemas.Token` has no `refresh_token` field, so
the serialized wire response drops it (the serialization is invariant under
the refresh token); wrong password and unknown e-mail yield 401
"Invalid credentials".  This exhibits the divergence between the handler
(and the repository's own test asserting `refresh_token` in the response)
and the response schema. -/
theorem c6_login_contract_at_failing_input :
    login_endpoint c6DB { email := "u@e.com", password := "mypassword" } 0 =
      .ok { access_token := create_access_token "1" 0,
            refresh_token := create_refresh_token "1" 0, token_type := "bearer" } ∧
    jwtDecode (create_access_token "1" 0) secretKey 10 = some (create_access_token "1" 0) ∧
    (create_access_token "1" 0).sub = some (toString c6User.id) ∧
    serialize_token_response
        { access_token := create_access_token "1" 0,
          refresh_token := create_refresh_token "1" 0, token_type := "bearer" } =
      { access_token := create_access_token "1" 0, token_type := "bearer" } ∧
    (∀ d : LoginDict, ∀ rt : Jwt,
      serialize_token_response { d with refresh_token := rt } = serialize_token_response d) ∧
    login_endpoint c6DB { email := "u@e.com", password := "wrong" } 0 =
      .error { status := 401, detail := "Invalid credentials" } ∧
    login_endpoint c6DB { email := "ghost@e.com", password := "mypassword" } 0 =
      .error { status := 401, detail := "Invalid credentials" } := by
  exact ⟨rfl, rfl, rfl, rfl, fun d rt => rfl, rfl, rfl⟩

-- ================= C7 =================

/-- C7: for an existing ticket with its reporter present, the status-update
endpoint on the rejected literal schedules the rejection email plus the
chat-platform message for a (truthy) linked id; on the done literal it
schedules nothing; and the service-record endpoint always schedules the
completion email carrying the request's `used_parts`, plus the chat-platform
message likewise. -/
theorem c7_notification_divergence (db : DB) (id next_id : Nat) (problem : Problem)
    (owner : User) (record : ServiceRecordCreate)
    (hp : get_problem db id = some problem)
    (ho : get_user_by_id db problem.user_id = some owner)
    (hr : record.problem_id = id) :
    change_problem_status_endpoint db id .rejected =
      .ok (writeProblemStatus db id "відмовлено", { problem with status := "відмовлено" },
           Notification.email owner.email "ticket_rejected" none :: tgNotifs owner) ∧
    change_problem_status_endpoint db id .done =
      .ok (writeProblemStatus db id "виконано", { problem with status := "виконано" }, []) ∧
    (∃ db', create_service_record_endpoint db record next_id =
      .ok (db', { id := next_id, work_done := record.work_done,
                  used_parts := record.used_parts, warranty_info := record.warranty_info,
                  problem_id := record.problem_id, user_id := problem.user_id },
           Notification.email owner.email "service_record" record.used_parts :: tgNotifs owner)) ∧
    (owner.telegram_id = none → tgNotifs owner = []) ∧
    (∀ chatId : Int, owner.telegram_id = some chatId → chatId ≠ 0 →
      tgNotifs owner = [Notification.tg chatId]) := by
  subst hr
  have hsel : ∀ st : String, get_problem (writeProblemStatus db record.problem_id st)
      record.problem_id = some { problem with status := st } := by
    intro st
    rw [get_problem_writeProblemStatus, hp]
    rfl
  have husers : ∀ st : String,
      get_user_by_id (writeProblemStatus db record.problem_id st) problem.user_id = some owner := by
    intro st
    exact ho
  refine ⟨?_, ?_, ?_, ?_, ?_⟩
  · unfold change_problem_status_endpoint update_problem_status
    simp only [StatusLiteral.toStatusString]
    simp only [hsel "відмовлено"]
    simp only [husers "відмовлено"]
  · unfold change_problem_status_endpoint update_problem_status
    simp only [StatusLiteral.toStatusString]
    simp only [hsel "виконано"]
  · unfold create_service_record_endpoint create_service_record
    rw [hp]
    simp only [update_problem_status, StatusLiteral.toStatusString]
    have hdbmid : get_problem { db with service_records := db.service_records ++
          [{ id := next_id, work_done := record.work_done, used_parts := record.used_parts,
             warranty_info := record.warranty_info, problem_id := record.problem_id,
             user_id := problem.user_id }] } record.problem_id = some problem := hp
    have hsel2 : get_problem (writeProblemStatus
        { db with service_records := db.service_records ++
            [{ id := next_id, work_done := record.work_done, used_parts := record.used_parts,
               warranty_info := record.warranty_info, problem_id := record.problem_id,
               user_id := problem.user_id }] }
        record.problem_id "виконано") record.problem_id = some { problem with status := "виконано" } := by
      rw [get_problem_writeProblemStatus, hdbmid]
      rfl
    have husers2 : get_user_by_id (writeProblemStatus
        { db with service_records := db.service_records ++
            [{ id := next_id, work_done := record.work_done, used_parts := record.used_parts,
               warranty_info := record.warranty_info, problem_id := record.problem_id,
               user_id := problem.user_id }] }
        record.problem_id "виконано") problem.user_id = some owner := ho
    simp only [hsel2, husers2]
    exact ⟨_, rfl⟩
  · intro hnone
    unfold tgNotifs
    rw [hnone]
  · intro chatId hsome hne
    unfold tgNotifs
    rw [hsome]
    simp [hne]

/-- Reporter for the C7 witness, with a linked chat id. -/
def c7Owner : User :=
  { id := 7, username := "o", email := "o@e.com", password := "x",
    is_admin := false, is_verified := true, telegram_id := some 42 }

/-- Ticket for the C7 witness, reported by user 7. -/
def c7Problem : Problem :=
  { id := 9, title := "t", description := "d", image_url := none,
    status := "в роботі", user_id := 7, admin_id := some 2 }

/-- Database for the C7 witness. -/
def c7DB : DB := { dbEmpty with users := [c7Owner], problems := [c7Problem] }

/-- Service-record request for the C7 witness. -/
def c7Record : ServiceRecordCreate :=
  { work_done := "w", used_parts := some ["Fan", "Paste"], warranty_info := "g",
    problem_id := 9, user_id := 55 }

/-- C7, witness: concrete run of the notification divergence on ticket 9. -/
theorem c7_witness :
    change_problem_status_endpoint c7DB 9 .rejected =
      .ok (writeProblemStatus c7DB 9 "відмовлено", { c7Problem with status := "відмовлено" },
           Notification.email c7Owner.email "ticket_rejected" none :: tgNotifs c7Owner) ∧
    change_problem_status_endpoint c7DB 9 .done =
      .ok (writeProblemStatus c7DB 9 "виконано", { c7Problem with status := "виконано" }, []) ∧
    (∃ db', create_service_record_endpoint c7DB c7Record 1 =
      .ok (db', { id := 1, work_done := c7Record.work_done,
                  used_parts := c7Record.used_parts, warranty_info := c7Record.warranty_info,
                  problem_id := c7Record.problem_id, user_id := c7Problem.user_id },
           Notification.email c7Owner.email "service_record" c7Record.used_parts ::
             tgNotifs c7Owner)) ∧
    (c7Owner.telegram_id = none → tgNotifs c7Owner = []) ∧
    (∀ chatId : Int, c7Owner.telegram_id = some chatId → chatId ≠ 0 →
      tgNotifs c7Owner = [Notification.tg chatId]) :=
  c7_notification_divergence c7DB 9 1 c7Problem c7Owner c7Record rfl rfl rfl

-- ================= C8 =================

/-- C8: POST /verify-email — already-verified accounts get the
already-verified success message; an absent cached code yields the
expired-or-not-found 400; a mismatched cached code yields the Invalid Code
400; a matching code marks the account verified and deletes the
`verification:{id}` entry, so no later read can see a code for that user. -/
theorem c8_verify_email_cases (r : Redis) (db : DB) (u : User) (code : String) (now : Nat) :
    (u.is_verified = true →
      verify_email_endpoint r db u code now = .ok (r, db, "Email already verified")) ∧
    (u.is_verified = false → rGetVerification r u.id now = none →
      verify_email_endpoint r db u code now =
        .error { status := 400, detail := "Code expired or not found" }) ∧
    (∀ cached, u.is_verified = false → rGetVerification r u.id now = some cached →
      cached ≠ code →
      verify_email_endpoint r db u code now = .error { status := 400, detail := "Invalid Code" }) ∧
    (u.is_verified = false → rGetVerification r u.id now = some code →
      ∀ du, get_user_by_id db u.id = some du →
      ∃ r' db', verify_email_endpoint r db u code now =
          .ok (r', db', "Email successfully verified") ∧
        get_user_by_id db' u.id = some { du with is_verified := true } ∧
        ∀ t, rGetVerification r' u.id t = none) := by
  refine ⟨?_, ?_, ?_, ?_⟩
  · intro hv
    simp [verify_email_endpoint, hv]
  · intro hv hc
    simp [verify_email_endpoint, hv, hc]
  · intro cached hv hc hne
    simp [verify_email_endpoint, hv, hc, hne]
  · intro hv hc du hdu
    refine ⟨rDelVerification r u.id, (verify_user db u.id).1, ?_, ?_, ?_⟩
    · simp [verify_email_endpoint, hv, hc]
    · rw [get_user_by_id_verify_map, hdu]
      rfl
    · intro t
      have hfind : (r.verification.filter (fun e => !(e.1 == u.id))).find?
          (fun e => e.1 == u.id) = none := by
        rw [List.find?_eq_none]
        intro x hx
        have hkeep := (List.mem_filter.mp hx).2
        simp at hkeep ⊢
        exact hkeep
      simp [rGetVerification, rDelVerification, hfind]

/-- An already-verified account, for the C8 witness. -/
def c8Verified : User :=
  { id := 4, username := "v", email := "v@e.com", password := "x",
    is_admin := false, is_verified := true, telegram_id := none }

/-- An unverified account, for the C8 witness. -/
def c8User : User :=
  { id := 5, username := "w", email := "w@e.com", password := "x",
    is_admin := false, is_verified := false, telegram_id := none }

/-- Database for the C8 witness. -/
def c8DB : DB := { dbEmpty with users := [c8User] }

/-- Cache holding verification code "123456" for user 5. -/
def c8Redis : Redis := { redisEmpty with verification := [(5, "123456", some 600)] }

/-- C8, witness: the four branches at concrete inputs. -/
theorem c8_witness :
    verify_email_endpoint redisEmpty dbEmpty c8Verified "1" 0 =
      .ok (redisEmpty, dbEmpty, "Email already verified") ∧
    verify_email_endpoint redisEmpty dbEmpty c8User "1" 0 =
      .error { status := 400, detail := "Code expired or not found" } ∧
    verify_email_endpoint c8Redis c8DB c8User "999999" 0 =
      .error { status := 400, detail := "Invalid Code" } ∧
    ∃ r' db', verify_email_endpoint c8Redis c8DB c8User "123456" 0 =
        .ok (r', db', "Email successfully verified") ∧
      get_user_by_id db' c8User.id = some { c8User with is_verified := true } ∧
      ∀ t, rGetVerification r' c8User.id t = none :=
  ⟨(c8_verify_email_cases redisEmpty dbEmpty c8Verified "1" 0).1 rfl,
   (c8_verify_email_cases redisEmpty dbEmpty c8User "1" 0).2.1 rfl rfl,
   (c8_verify_email_cases c8Redis c8DB c8User "999999" 0).2.2.1 "123456" rfl rfl (by decide),
   (c8_verify_email_cases c8Redis c8DB c8User "123456" 0).2.2.2 rfl rfl c8User rfl⟩
